import Mathlib

/-!
Verification of the transaction-reconciliation core of the saleor excerpt
(`transactionUpdate` mutation, order aggregate recomputation, transaction
event log).  The repository excerpt under `src/` contains only the test
modules of this subsystem; the mutation handler, the models and the order
utilities themselves are not part of the excerpt, so every definition of
the core below is modelled from the specification (spec.md), as marked in
its doc comment, and checked against the behaviour the test modules pin
down.
-/

namespace Saleor

/-- Modelled from the spec: monetary amounts are decimals; we embed them as
integers in fixed-point minor units (the claims under check involve only sums, equality and zero, which this embedding preserves).  A `Money` value pairs an amount with an ISO currency code, as in
the GraphQL `MoneyInput` (`{amount, currency}`). -/
structure Money where
  amount : Int
  currency : String
deriving DecidableEq

/-- Modelled from the spec: the `available_actions` enum values
(REFUND/CHARGE/VOID/CANCEL). -/
inductive TransactionAction
  | charge
  | refund
  | void
  | cancel
deriving DecidableEq

/-- The stored (database) representation of an action: the lowercase value
string of the enum member. -/
def TransactionAction.value : TransactionAction → String
  | .charge => "charge"
  | .refund => "refund"
  | .void => "void"
  | .cancel => "cancel"

/-- The GraphQL-facing name of an action: the uppercase enum member name. -/
def TransactionAction.gqlName : TransactionAction → String
  | .charge => "CHARGE"
  | .refund => "REFUND"
  | .void => "VOID"
  | .cancel => "CANCEL"

/-- Modelled from the spec: the event status enum (PENDING/SUCCESS/FAILURE). -/
inductive TransactionEventStatus
  | pending
  | success
  | failure
deriving DecidableEq

/-- The GraphQL enum member name of an event status. -/
def TransactionEventStatus.gqlName : TransactionEventStatus → String
  | .pending => "PENDING"
  | .success => "SUCCESS"
  | .failure => "FAILURE"

/-- Modelled from the spec: the event action-type enum
(AUTHORIZE/CHARGE/VOID/REFUND). -/
inductive TransactionEventActionType
  | authorizeAction
  | chargeAction
  | voidAction
  | refundAction
deriving DecidableEq

/-- Modelled from the spec: the ledger entity `TransactionItem` — one
payment-provider transaction bound to an order, with four running monetary
totals in a single fixed currency, free-text labels, available actions
(stored as value strings), metadata mappings, and a mutually exclusive
requestor provenance (`app` / `user`). -/
structure TransactionItem where
  id : Nat
  order_id : Nat
  app : Option Nat
  user : Option Nat
  psp_reference : Option String
  status : String
  ttype : String
  available_actions : List String
  external_url : String
  currency : String
  authorized_value : Int
  charged_value : Int
  voided_value : Int
  refunded_value : Int
  metadata : List (String × String)
  private_metadata : List (String × String)
deriving DecidableEq

/-- Modelled from the spec: the immutable `TransactionEvent` fact appended to
a transaction's history; its currency is inherited from the parent. -/
structure TransactionEvent where
  transaction_id : Nat
  status : TransactionEventStatus
  psp_reference : Option String
  name : String
  external_url : String
  amount_value : Int
  currency : String
  ttype : Option TransactionEventActionType
deriving DecidableEq

/-- Modelled from the spec: the order aggregate written by this core —
`total_authorized_amount` and `total_charged_amount`. -/
structure Order where
  id : Nat
  total_authorized_amount : Int
  total_charged_amount : Int
deriving DecidableEq

/-- The value of `OrderEvents.TRANSACTION_EVENT`: the type tag of the order
note appended when a transaction event is recorded. -/
def TRANSACTION_EVENT : String := "transaction_event"

/-- Modelled from the spec: the human-readable note appended to the order's
event history when a transaction event is recorded, with parameters
`{message, reference, status}`. -/
structure OrderEventNote where
  order_id : Nat
  event_type : String
  message : String
  reference : String
  status : String
deriving DecidableEq

/-- The persisted state of the subsystem: all transactions, the global
append-only event log, the orders with their aggregates, and the orders'
narrative event history. -/
structure State where
  transactions : List TransactionItem
  events : List TransactionEvent
  orders : List Order
  order_events : List OrderEventNote
deriving DecidableEq

/-- The transactions linked to order `oid`. -/
def orderTransactions (s : State) (oid : Nat) : List TransactionItem :=
  s.transactions.filter (fun t => t.order_id == oid)

/-- Sum of the authorized values of a list of transactions. -/
def sumAuthorized (ts : List TransactionItem) : Int :=
  (ts.map (fun t => t.authorized_value)).sum

/-- Sum of the charged values of a list of transactions. -/
def sumCharged (ts : List TransactionItem) : Int :=
  (ts.map (fun t => t.charged_value)).sum

/-- Modelled from the spec: `update_order_authorize_data` (order aggregate
updater, §4.3) — sets the order's `total_authorized_amount` to the sum of
`authorized_value` over all transactions linked to the order; a pure
recomputation, not a delta apply. -/
def update_order_authorize_data (s : State) (oid : Nat) : State :=
  { s with orders := s.orders.map (fun o =>
      if o.id == oid then
        { o with total_authorized_amount := sumAuthorized (orderTransactions s oid) }
      else o) }

/-- Modelled from the spec: `update_order_charge_data` (order aggregate
updater, §4.3) — symmetric to the authorize recompute, over `charged_value`. -/
def update_order_charge_data (s : State) (oid : Nat) : State :=
  { s with orders := s.orders.map (fun o =>
      if o.id == oid then
        { o with total_charged_amount := sumCharged (orderTransactions s oid) }
      else o) }

theorem update_order_authorize_data_transactions (s : State) (oid : Nat) :
    (update_order_authorize_data s oid).transactions = s.transactions := rfl

theorem update_order_charge_data_transactions (s : State) (oid : Nat) :
    (update_order_charge_data s oid).transactions = s.transactions := rfl

/-- The recompute of the authorized aggregate is idempotent. -/
theorem update_order_authorize_data_idem (s : State) (oid : Nat) :
    update_order_authorize_data (update_order_authorize_data s oid) oid =
      update_order_authorize_data s oid := by
  unfold update_order_authorize_data
  simp only [List.map_map]
  congr 1
  apply List.map_congr_left
  intro o _
  simp only [Function.comp_apply, orderTransactions]
  by_cases h : o.id == oid <;> simp [h]

/-- The recompute of the charged aggregate is idempotent. -/
theorem update_order_charge_data_idem (s : State) (oid : Nat) :
    update_order_charge_data (update_order_charge_data s oid) oid =
      update_order_charge_data s oid := by
  unfold update_order_charge_data
  simp only [List.map_map]
  congr 1
  apply List.map_congr_left
  intro o _
  simp only [Function.comp_apply, orderTransactions]
  by_cases h : o.id == oid <;> simp [h]

/-! ### Mutation input, error records and validation -/

/-- Modelled from the spec: the error-code enumeration surfaced by the
mutation (§6). -/
inductive ErrorCode
  | INVALID
  | METADATA_KEY_REQUIRED
  | INCORRECT_CURRENCY
  | UNIQUE
  | NOT_FOUND
  | PERMISSION_DENIED
deriving DecidableEq

/-- A structured `{field, message, code}` error record. -/
structure MutationError where
  field : String
  message : String
  code : ErrorCode
deriving DecidableEq

/-- Modelled from the spec: the `TransactionUpdateInput` partial-update
payload, every field optional. -/
structure TransactionUpdateInput where
  amount_authorized : Option Money := none
  amount_charged : Option Money := none
  amount_voided : Option Money := none
  amount_refunded : Option Money := none
  status : Option String := none
  ttype : Option String := none
  available_actions : Option (List TransactionAction) := none
  external_url : Option String := none
  psp_reference : Option String := none
  metadata : Option (List (String × String)) := none
  private_metadata : Option (List (String × String)) := none
deriving DecidableEq

/-- Modelled from the spec: the `TransactionEventInput` create-event
payload. -/
structure TransactionEventInput where
  status : TransactionEventStatus
  psp_reference : Option String := none
  name : Option String := none
  external_url : Option String := none
  amount : Option Int := none
  ttype : Option TransactionEventActionType := none
deriving DecidableEq

/-- A submitted amount mismatches when it is present and carries a currency
other than the transaction's stored currency (§4.1 `set_amount`). -/
def amountMismatch (t : TransactionItem) : Option Money → Bool
  | none => false
  | some m => m.currency != t.currency

/-- A submitted metadata list is invalid when some entry has an empty key
(§4.1 `set_metadata_entry`). -/
def metadataInvalid : Option (List (String × String)) → Bool
  | none => false
  | some entries => entries.any (fun kv => kv.1.isEmpty)

/-- Modelled from the spec: a well-formed absolute URL, embedded as a string
carrying an http or https scheme. -/
def isValidUrl (url : String) : Bool :=
  url.startsWith "http://" || url.startsWith "https://"

/-- A submitted external URL is invalid when present and not a well-formed
absolute URL (§4.1 `set_external_url`). -/
def urlInvalid : Option String → Bool
  | none => false
  | some u => !isValidUrl u

/-- A submitted transaction `psp_reference` conflicts when another
transaction (a different id) already holds it (§4.1 `set_psp_reference`). -/
def pspReferenceTaken (s : State) (tid : Nat) : Option String → Bool
  | none => false
  | some r => s.transactions.any (fun t => t.id != tid && t.psp_reference == some r)

/-- A submitted event `psp_reference` conflicts when any existing event
already holds it — global uniqueness across all events (§4.2, §9). -/
def eventPspReferenceTaken (s : State) : Option String → Bool
  | none => false
  | some r => s.events.any (fun e => e.psp_reference == some r)

/-- Modelled from the spec: validation of the `transaction` payload (§4.4
step 3) — the four amount fields are checked first, in input order, then
metadata keys, the external URL and the psp reference; the first failing
field aborts with its error. -/
def validateTransactionInput (s : State) (t : TransactionItem)
    (i : TransactionUpdateInput) : Option MutationError :=
  if amountMismatch t i.amount_authorized then
    some ⟨"amountAuthorized", "Currency needs to be the same as for transaction", .INCORRECT_CURRENCY⟩
  else if amountMismatch t i.amount_charged then
    some ⟨"amountCharged", "Currency needs to be the same as for transaction", .INCORRECT_CURRENCY⟩
  else if amountMismatch t i.amount_voided then
    some ⟨"amountVoided", "Currency needs to be the same as for transaction", .INCORRECT_CURRENCY⟩
  else if amountMismatch t i.amount_refunded then
    some ⟨"amountRefunded", "Currency needs to be the same as for transaction", .INCORRECT_CURRENCY⟩
  else if metadataInvalid i.metadata then
    some ⟨"metadata", "Metadata key cannot be empty", .METADATA_KEY_REQUIRED⟩
  else if metadataInvalid i.private_metadata then
    some ⟨"privateMetadata", "Metadata key cannot be empty", .METADATA_KEY_REQUIRED⟩
  else if urlInvalid i.external_url then
    some ⟨"externalUrl", "Invalid format of a URL", .INVALID⟩
  else if pspReferenceTaken s t.id i.psp_reference then
    some ⟨"transaction", "Transaction with provided pspReference already exists", .UNIQUE⟩
  else none

/-- Modelled from the spec: validation of the `transactionEvent` payload
(§4.2 `append`) — fails with `Unique` on field `transactionEvent` when the
supplied psp reference is already present on any event. -/
def validateEventInput (s : State) (i : TransactionEventInput) :
    Option MutationError :=
  if eventPspReferenceTaken s i.psp_reference then
    some ⟨"transactionEvent", "Transaction event with provided pspReference already exists", .UNIQUE⟩
  else none

/-- Upsert of one metadata entry into an ordered string mapping. -/
def setEntry (m : List (String × String)) (k v : String) : List (String × String) :=
  (m.filter (fun kv => kv.1 != k)) ++ [(k, v)]

/-- Fold of `setEntry` over a list of submitted entries. -/
def setEntries (m : List (String × String)) (entries : List (String × String)) :
    List (String × String) :=
  entries.foldl (fun acc kv => setEntry acc kv.1 kv.2) m

/-- Modelled from the spec: the staged change-set of a validated
`transaction` payload applied to the ledger entity — each present field is
set to the submitted value, `available_actions` being stored as the enum
value strings; absent fields are kept. -/
def applyTransactionInput (i : TransactionUpdateInput) (t : TransactionItem) :
    TransactionItem :=
  { t with
    authorized_value := match i.amount_authorized with
      | some m => m.amount
      | none => t.authorized_value
    charged_value := match i.amount_charged with
      | some m => m.amount
      | none => t.charged_value
    voided_value := match i.amount_voided with
      | some m => m.amount
      | none => t.voided_value
    refunded_value := match i.amount_refunded with
      | some m => m.amount
      | none => t.refunded_value
    status := i.status.getD t.status
    ttype := i.ttype.getD t.ttype
    available_actions := match i.available_actions with
      | some acts => acts.map TransactionAction.value
      | none => t.available_actions
    external_url := i.external_url.getD t.external_url
    psp_reference := match i.psp_reference with
      | some r => some r
      | none => t.psp_reference
    metadata := match i.metadata with
      | some entries => setEntries t.metadata entries
      | none => t.metadata
    private_metadata := match i.private_metadata with
      | some entries => setEntries t.private_metadata entries
      | none => t.private_metadata }

/-- Modelled from the spec: the event created on a successful append — the
submitted fields, with the currency inherited from the parent transaction
and the amount defaulting to zero (§4.2). -/
def buildEvent (t : TransactionItem) (i : TransactionEventInput) :
    TransactionEvent :=
  { transaction_id := t.id
    status := i.status
    psp_reference := i.psp_reference
    name := i.name.getD ""
    external_url := i.external_url.getD ""
    amount_value := i.amount.getD 0
    currency := t.currency
    ttype := i.ttype }

/-- Modelled from the spec: the note appended to the order's event history
on a successful event append, with parameters
`message = name`, `reference = psp_reference`, `status = status.lower()`. -/
def buildOrderNote (t : TransactionItem) (i : TransactionEventInput) :
    OrderEventNote :=
  { order_id := t.order_id
    event_type := TRANSACTION_EVENT
    message := i.name.getD ""
    reference := (i.psp_reference).getD ""
    status := (TransactionEventStatus.gqlName i.status).toLower }

/-! ### Authorization -/

/-- The kind and identity of the authenticated caller. -/
inductive Requestor
  | appCaller (id : Nat)
  | userCaller (id : Nat)
deriving DecidableEq

/-- The authenticated caller: a requestor together with whether it holds the
payments-management permission. -/
structure Caller where
  requestor : Requestor
  has_payment_permission : Bool
deriving DecidableEq

/-- Modelled from the spec: the authorization contract (§3, §6) — an
app-token caller may act on a transaction only if the transaction's
creator-application identity matches the caller's; a user/staff caller may
act only on user-owned transactions, gated by the payments-management
permission but not by the creating user's identity. -/
def authorize (c : Caller) (t : TransactionItem) : Bool :=
  match c.requestor with
  | .appCaller aid => c.has_payment_permission && t.app == some aid
  | .userCaller _ => c.has_payment_permission && t.user.isSome

/-! ### The transactionUpdate mutation -/

/-- Resolution of a transaction by id. -/
def findTransaction (s : State) (tid : Nat) : Option TransactionItem :=
  s.transactions.find? (fun t => t.id == tid)

/-- The observable outcome of one mutation invocation: the optional
transaction payload, the error list, and the persisted state after the
call. -/
structure MutationResult where
  transaction : Option TransactionItem
  errors : List MutationError
  state : State
deriving DecidableEq

/-- A full failure: a null transaction payload, one error, and the state
untouched. -/
def failWith (e : MutationError) (s : State) : MutationResult :=
  { transaction := none, errors := [e], state := s }

/-- Whether the payload submits an `amountAuthorized` update. -/
def hasAuthorizedAmount : Option TransactionUpdateInput → Bool
  | some i => i.amount_authorized.isSome
  | none => false

/-- Whether the payload submits an `amountCharged` update. -/
def hasChargedAmount : Option TransactionUpdateInput → Bool
  | some i => i.amount_charged.isSome
  | none => false

/-- The commit of a fully validated mutation (§4.4 steps 3c-5): persist the
updated transaction, append the event and the order note when an event
payload is present, then recompute the order aggregates matching the amount
fields that were submitted. -/
def commitUpdate (s : State) (t t' : TransactionItem)
    (tInput : Option TransactionUpdateInput)
    (eInput : Option TransactionEventInput) : State :=
  let s1 : State :=
    { s with transactions := s.transactions.map (fun x => if x.id == t.id then t' else x) }
  let s2 : State :=
    match eInput with
    | some ei =>
        { s1 with
          events := buildEvent t ei :: s1.events
          order_events := buildOrderNote t ei :: s1.order_events }
    | none => s1
  let s3 : State :=
    if hasAuthorizedAmount tInput then update_order_authorize_data s2 t.order_id else s2
  if hasChargedAmount tInput then update_order_charge_data s3 t.order_id else s3

/-- The error of the optional `transaction` payload, when present. -/
def transactionPayloadError (s : State) (t : TransactionItem) :
    Option TransactionUpdateInput → Option MutationError
  | some i => validateTransactionInput s t i
  | none => none

/-- The error of the optional `transactionEvent` payload, when present. -/
def eventPayloadError (s : State) :
    Option TransactionEventInput → Option MutationError
  | some ei => validateEventInput s ei
  | none => none

/-- The staged transaction after the optional `transaction` payload. -/
def stagedTransaction (t : TransactionItem) :
    Option TransactionUpdateInput → TransactionItem
  | some i => applyTransactionInput i t
  | none => t

/-- Modelled from the spec: the `transactionUpdate` reconciliation service
(§4.4) — resolve the transaction, check authorization, validate the whole
`transaction` payload (first failure aborts the mutation with that single
error and no partial writes), validate the `transactionEvent` payload
(failure likewise aborts everything), and only then commit all changes as
one atomic unit and recompute the order aggregates. -/
def transactionUpdate (c : Caller) (tid : Nat)
    (tInput : Option TransactionUpdateInput)
    (eInput : Option TransactionEventInput) (s : State) : MutationResult :=
  match findTransaction s tid with
  | none => failWith ⟨"id", "Could not resolve to a node with the global ID", .NOT_FOUND⟩ s
  | some t =>
    if authorize c t then
      match transactionPayloadError s t tInput with
      | some e => failWith e s
      | none =>
        match eventPayloadError s eInput with
        | some e => failWith e s
        | none =>
          { transaction := some (stagedTransaction t tInput)
            errors := []
            state := commitUpdate s t (stagedTransaction t tInput) tInput eInput }
    else failWith ⟨"id", "Permission denied", .PERMISSION_DENIED⟩ s

/-! ### Concrete fixtures -/

/-- A base transaction fixture: currency USD, owned by app 7, linked to
order 1, all amounts zero. -/
def baseTransaction : TransactionItem :=
  { id := 0, order_id := 1, app := some 7, user := none, psp_reference := none,
    status := "", ttype := "", available_actions := [], external_url := "",
    currency := "USD", authorized_value := 0, charged_value := 0,
    voided_value := 0, refunded_value := 0, metadata := [], private_metadata := [] }

/-- Fixture transaction A: authorized 90. -/
def transA : TransactionItem :=
  { baseTransaction with id := 1, app := none, authorized_value := 90 }

/-- Fixture transaction B: authorized 0, created by app 7. -/
def transB : TransactionItem :=
  { baseTransaction with id := 2 }

/-- Fixture state: order 1 with transactions A and B and consistent
aggregates. -/
def stateAB : State :=
  { transactions := [transA, transB], events := [],
    orders := [{ id := 1, total_authorized_amount := 90, total_charged_amount := 0 }],
    order_events := [] }

/-- The app caller owning transaction B, holding the payments permission. -/
def appOwner : Caller := { requestor := .appCaller 7, has_payment_permission := true }

/-- A staff caller holding the payments permission. -/
def staffCaller : Caller := { requestor := .userCaller 3, has_payment_permission := true }

/-- A payload updating only `amountAuthorized`, in USD. -/
def authorizedPayload (v : Int) : TransactionUpdateInput :=
  { amount_authorized := some { amount := v, currency := "USD" } }

/-- The order's authorized total, when the order exists. -/
def totalAuthorizedOf (s : State) (oid : Nat) : Option Int :=
  (s.orders.find? (fun o => o.id == oid)).map (fun o => o.total_authorized_amount)

/-- The order's charged total, when the order exists. -/
def totalChargedOf (s : State) (oid : Nat) : Option Int :=
  (s.orders.find? (fun o => o.id == oid)).map (fun o => o.total_charged_amount)

/-! ### Theorems about the claims -/

/-- C8: the order-aggregate recomputes are idempotent — for every order
state, recomputing the authorized (resp. charged) total twice with no
intervening change to any transaction yields the same result as
recomputing it once. -/
theorem order_aggregate_recompute_idem (s : State) (oid : Nat) :
    update_order_authorize_data (update_order_authorize_data s oid) oid =
      update_order_authorize_data s oid ∧
    update_order_charge_data (update_order_charge_data s oid) oid =
      update_order_charge_data s oid :=
  ⟨update_order_authorize_data_idem s oid, update_order_charge_data_idem s oid⟩

/-- C2: every invocation of the transactionUpdate mutation either fully
succeeds — a non-empty transaction payload with an empty error list — or
fully fails — a null transaction payload with a non-empty error list — and
on every failure the persisted state is identical to the state before the
call began. -/
theorem transactionUpdate_atomic (c : Caller) (tid : Nat)
    (tI : Option TransactionUpdateInput) (eI : Option TransactionEventInput)
    (s : State) :
    ((transactionUpdate c tid tI eI s).transaction ≠ none ∧
      (transactionUpdate c tid tI eI s).errors = []) ∨
    ((transactionUpdate c tid tI eI s).transaction = none ∧
      (transactionUpdate c tid tI eI s).errors ≠ [] ∧
      (transactionUpdate c tid tI eI s).state = s) := by
  unfold transactionUpdate
  cases hf : findTransaction s tid with
  | none => right; simp [failWith]
  | some t =>
    by_cases hauth : authorize c t = true
    · simp only [hauth, if_true]
      cases hv : transactionPayloadError s t tI with
      | some e => right; simp [failWith]
      | none =>
        cases he : eventPayloadError s eI with
        | some e => right; simp [failWith]
        | none => left; simp
    · simp only [hauth, if_false]
      right; simp [failWith]

/-- The first of the four amount fields, in validation order, that is
submitted with a currency other than the transaction's. -/
def firstOffendingAmountField (t : TransactionItem) (i : TransactionUpdateInput) :
    Option String :=
  if amountMismatch t i.amount_authorized then some "amountAuthorized"
  else if amountMismatch t i.amount_charged then some "amountCharged"
  else if amountMismatch t i.amount_voided then some "amountVoided"
  else if amountMismatch t i.amount_refunded then some "amountRefunded"
  else none

/-- The submitted money under a given amount field name. -/
def amountInputFor (i : TransactionUpdateInput) (f : String) : Option Money :=
  if f == "amountAuthorized" then i.amount_authorized
  else if f == "amountCharged" then i.amount_charged
  else if f == "amountVoided" then i.amount_voided
  else if f == "amountRefunded" then i.amount_refunded
  else none

/-- C3: an update submitting an amount field in a currency different from
the transaction's stored currency fails atomically with the single
`INCORRECT_CURRENCY` error naming the first offending amount field; the
state is untouched, so no submitted field of the payload is persisted. -/
theorem transactionUpdate_incorrect_currency (c : Caller) (tid : Nat)
    (i : TransactionUpdateInput) (eI : Option TransactionEventInput)
    (s : State) (t : TransactionItem) (f : String)
    (hf : findTransaction s tid = some t)
    (hauth : authorize c t = true)
    (hoff : firstOffendingAmountField t i = some f) :
    transactionUpdate c tid (some i) eI s =
      failWith ⟨f, "Currency needs to be the same as for transaction",
        .INCORRECT_CURRENCY⟩ s ∧
    amountMismatch t (amountInputFor i f) = true := by
  unfold transactionUpdate
  rw [hf]
  simp only [hauth, if_true]
  unfold firstOffendingAmountField at hoff
  unfold transactionPayloadError validateTransactionInput
  by_cases h1 : amountMismatch t i.amount_authorized
  · simp only [h1, if_true] at hoff ⊢
    cases hoff
    exact ⟨rfl, by simpa [amountInputFor] using h1⟩
  · by_cases h2 : amountMismatch t i.amount_charged
    · simp only [h1, h2, if_true, if_false] at hoff ⊢
      cases hoff
      exact ⟨rfl, by simpa [amountInputFor] using h2⟩
    · by_cases h3 : amountMismatch t i.amount_voided
      · simp only [h1, h2, h3, if_true, if_false] at hoff ⊢
        cases hoff
        exact ⟨rfl, by simpa [amountInputFor] using h3⟩
      · by_cases h4 : amountMismatch t i.amount_refunded
        · simp only [h1, h2, h3, h4, if_true, if_false] at hoff ⊢
          cases hoff
          exact ⟨rfl, by simpa [amountInputFor] using h4⟩
        · simp [h1, h2, h3, h4] at hoff

/-- Witness for C3 at a concrete input: updating transaction B's
`amountAuthorized` in PLN while its currency is USD yields exactly the
`INCORRECT_CURRENCY` failure naming `amountAuthorized` and leaves the state
untouched. -/
theorem transactionUpdate_incorrect_currency_witness :
    transactionUpdate appOwner 2
        (some { amount_authorized := some { amount := 10, currency := "PLN" } })
        none stateAB =
      failWith ⟨"amountAuthorized", "Currency needs to be the same as for transaction",
        .INCORRECT_CURRENCY⟩ stateAB ∧
    amountMismatch transB
      (amountInputFor { amount_authorized := some { amount := 10, currency := "PLN" } }
        "amountAuthorized") = true :=
  transactionUpdate_incorrect_currency appOwner 2
    { amount_authorized := some { amount := 10, currency := "PLN" } }
    none stateAB transB "amountAuthorized" (by decide) (by decide) (by decide)

/-- C4: an update submitting a `pspReference` that another transaction
already holds fails with exactly one `UNIQUE` error on field
`"transaction"` and a null transaction payload; the transaction count is
unchanged and no `TransactionEvent` is created as a side effect. -/
theorem transactionUpdate_psp_reference_unique (c : Caller) (tid : Nat)
    (i : TransactionUpdateInput) (eI : Option TransactionEventInput)
    (s : State) (t : TransactionItem) (r : String)
    (hf : findTransaction s tid = some t)
    (hauth : authorize c t = true)
    (hoff : firstOffendingAmountField t i = none)
    (hmd : metadataInvalid i.metadata = false)
    (hpmd : metadataInvalid i.private_metadata = false)
    (hurl : urlInvalid i.external_url = false)
    (href : i.psp_reference = some r)
    (htaken : pspReferenceTaken s t.id (some r) = true) :
    transactionUpdate c tid (some i) eI s =
      failWith ⟨"transaction", "Transaction with provided pspReference already exists",
        .UNIQUE⟩ s ∧
    (transactionUpdate c tid (some i) eI s).state.transactions.length =
      s.transactions.length ∧
    (transactionUpdate c tid (some i) eI s).state.events = s.events := by
  have hval : transactionPayloadError s t (some i) =
      some ⟨"transaction", "Transaction with provided pspReference already exists",
        .UNIQUE⟩ := by
    unfold firstOffendingAmountField at hoff
    by_cases h1 : amountMismatch t i.amount_authorized
    · simp [h1] at hoff
    · by_cases h2 : amountMismatch t i.amount_charged
      · simp [h1, h2] at hoff
      · by_cases h3 : amountMismatch t i.amount_voided
        · simp [h1, h2, h3] at hoff
        · by_cases h4 : amountMismatch t i.amount_refunded
          · simp [h1, h2, h3, h4] at hoff
          · simp only [transactionPayloadError, validateTransactionInput]
            rw [href]
            simp [h1, h2, h3, h4, hmd, hpmd, hurl, htaken]
  have hmain : transactionUpdate c tid (some i) eI s =
      failWith ⟨"transaction", "Transaction with provided pspReference already exists",
        .UNIQUE⟩ s := by
    unfold transactionUpdate
    rw [hf]
    simp only [hauth, if_true, hval]
  exact ⟨hmain, by rw [hmain]; rfl, by rw [hmain]; rfl⟩


/-- Concrete fixture for the duplicate-psp-reference scenarios: transaction
A holds psp reference PSP-A. -/
def stateABPsp : State :=
  { stateAB with transactions :=
      [{ transA with psp_reference := some "PSP-A" }, transB] }

/-- Witness for C4 at a concrete input: giving transaction B the psp
reference PSP-A already held by transaction A yields exactly the `UNIQUE`
failure on field `"transaction"` with the state untouched. -/
theorem transactionUpdate_psp_reference_unique_witness :
    transactionUpdate appOwner 2 (some { psp_reference := some "PSP-A" }) none
        stateABPsp =
      failWith ⟨"transaction", "Transaction with provided pspReference already exists",
        .UNIQUE⟩ stateABPsp ∧
    (transactionUpdate appOwner 2 (some { psp_reference := some "PSP-A" }) none
        stateABPsp).state.transactions.length =
      stateABPsp.transactions.length ∧
    (transactionUpdate appOwner 2 (some { psp_reference := some "PSP-A" }) none
        stateABPsp).state.events = stateABPsp.events :=
  transactionUpdate_psp_reference_unique appOwner 2
    { psp_reference := some "PSP-A" } none stateABPsp transB "PSP-A"
    (by decide) (by decide) (by decide) (by decide) (by decide) (by decide)
    (by decide) (by decide)

/-- C5: an event payload whose `pspReference` is already present on an
existing event fails with exactly one `UNIQUE` error on field
`"transactionEvent"` and a null transaction payload; no event is appended
and the transaction — including any changes from a simultaneously submitted
transaction payload — is left exactly as it was: the whole mutation aborts
as one atomic unit. -/
theorem transactionUpdate_event_psp_reference_unique (c : Caller) (tid : Nat)
    (tI : Option TransactionUpdateInput) (ei : TransactionEventInput)
    (s : State) (t : TransactionItem) (r : String)
    (hf : findTransaction s tid = some t)
    (hauth : authorize c t = true)
    (htOk : transactionPayloadError s t tI = none)
    (href : ei.psp_reference = some r)
    (htaken : eventPspReferenceTaken s (some r) = true) :
    transactionUpdate c tid tI (some ei) s =
      failWith ⟨"transactionEvent",
        "Transaction event with provided pspReference already exists", .UNIQUE⟩ s ∧
    (transactionUpdate c tid tI (some ei) s).state.events = s.events ∧
    findTransaction (transactionUpdate c tid tI (some ei) s).state tid = some t := by
  have hev : eventPayloadError s (some ei) =
      some ⟨"transactionEvent",
        "Transaction event with provided pspReference already exists", .UNIQUE⟩ := by
    simp only [eventPayloadError, validateEventInput]
    rw [href]
    simp [htaken]
  have hmain : transactionUpdate c tid tI (some ei) s =
      failWith ⟨"transactionEvent",
        "Transaction event with provided pspReference already exists", .UNIQUE⟩ s := by
    unfold transactionUpdate
    rw [hf]
    simp only [hauth, if_true, htOk, hev]
  exact ⟨hmain, by rw [hmain]; rfl, by rw [hmain]; exact hf⟩

/-- Concrete fixture for the duplicate-event-psp-reference scenario: one
existing event on transaction B holding the reference EV-1. -/
def stateABEvent : State :=
  { stateAB with events :=
      [{ transaction_id := 2, status := .pending, psp_reference := some "EV-1",
         name := "", external_url := "", amount_value := 0, currency := "USD",
         ttype := none }] }

/-- Witness for C5 at a concrete input: appending an event whose psp
reference EV-1 is already present, simultaneously with a status change on
the transaction payload, yields exactly the `UNIQUE` failure on field
`"transactionEvent"`, appends nothing and leaves transaction B unchanged. -/
theorem transactionUpdate_event_psp_reference_unique_witness :
    transactionUpdate appOwner 2 (some { status := some "Captured" })
        (some { status := .failure, psp_reference := some "EV-1" }) stateABEvent =
      failWith ⟨"transactionEvent",
        "Transaction event with provided pspReference already exists", .UNIQUE⟩
        stateABEvent ∧
    (transactionUpdate appOwner 2 (some { status := some "Captured" })
        (some { status := .failure, psp_reference := some "EV-1" })
        stateABEvent).state.events = stateABEvent.events ∧
    findTransaction (transactionUpdate appOwner 2 (some { status := some "Captured" })
        (some { status := .failure, psp_reference := some "EV-1" })
        stateABEvent).state 2 = some transB :=
  transactionUpdate_event_psp_reference_unique appOwner 2
    (some { status := some "Captured" })
    { status := .failure, psp_reference := some "EV-1" }
    stateABEvent transB "EV-1"
    (by decide) (by decide) (by decide) (by decide) (by decide)

theorem validateTransactionInput_code_ne_permission (s : State)
    (t : TransactionItem) (i : TransactionUpdateInput) (e : MutationError)
    (h : validateTransactionInput s t i = some e) :
    e.code ≠ ErrorCode.PERMISSION_DENIED := by
  unfold validateTransactionInput at h
  split_ifs at h <;>
    first
    | exact Option.noConfusion h
    | (injection h with h2; subst h2; decide)

theorem validateEventInput_code_ne_permission (s : State)
    (i : TransactionEventInput) (e : MutationError)
    (h : validateEventInput s i = some e) :
    e.code ≠ ErrorCode.PERMISSION_DENIED := by
  unfold validateEventInput at h
  split_ifs at h <;>
    first
    | exact Option.noConfusion h
    | (injection h with h2; subst h2; decide)

theorem transactionPayloadError_code_ne_permission (s : State)
    (t : TransactionItem) (tI : Option TransactionUpdateInput) (e : MutationError)
    (h : transactionPayloadError s t tI = some e) :
    e.code ≠ ErrorCode.PERMISSION_DENIED := by
  cases tI with
  | none => simp [transactionPayloadError] at h
  | some i => exact validateTransactionInput_code_ne_permission s t i e h

theorem eventPayloadError_code_ne_permission (s : State)
    (eI : Option TransactionEventInput) (e : MutationError)
    (h : eventPayloadError s eI = some e) :
    e.code ≠ ErrorCode.PERMISSION_DENIED := by
  cases eI with
  | none => simp [eventPayloadError] at h
  | some i => exact validateEventInput_code_ne_permission s i e h

/-- A user-created transaction fixture: created by user 9, linked to
order 1, currency USD. -/
def transU : TransactionItem :=
  { baseTransaction with id := 5, app := none, user := some 9 }

/-- Fixture state holding the user-created transaction. -/
def stateU : State :=
  { transactions := [transU], events := [],
    orders := [{ id := 1, total_authorized_amount := 0, total_charged_amount := 0 }],
    order_events := [] }

/-- C7: counterexample — the staff caller holding the payments-management
permission is nevertheless rejected as permission-denied on the app-created
transaction B, so the claim that a permitted user caller proceeds on any
transaction regardless of the creating requestor is false. -/
theorem transactionUpdate_user_permission_refuted :
    staffCaller.has_payment_permission = true ∧
    transB.app = some 7 ∧
    authorize staffCaller transB = false ∧
    transactionUpdate staffCaller 2 (some { status := some "Captured" }) none
        stateAB =
      failWith ⟨"id", "Permission denied", ErrorCode.PERMISSION_DENIED⟩ stateAB := by
  decide

/-- C7 (amended): a staff/user caller granted the payments-management
permission is authorized on any existing user-created transaction — the
user-caller grant is permission-based, not based on the creating user's
identity — so the mutation proceeds and is never rejected as
permission-denied, regardless of which user created the transaction;
app-created transactions are excluded. -/
theorem transactionUpdate_user_permission_on_user_owned (c : Caller)
    (tid : Nat) (tI : Option TransactionUpdateInput)
    (eI : Option TransactionEventInput) (s : State) (t : TransactionItem)
    (uid uid2 : Nat)
    (hreq : c.requestor = .userCaller uid)
    (hperm : c.has_payment_permission = true)
    (howner : t.user = some uid2)
    (hf : findTransaction s tid = some t) :
    authorize c t = true ∧
    ∀ e ∈ (transactionUpdate c tid tI eI s).errors,
      e.code ≠ ErrorCode.PERMISSION_DENIED := by
  have hauth : authorize c t = true := by
    unfold authorize
    rw [hreq]
    simp [hperm, howner]
  refine ⟨hauth, ?_⟩
  unfold transactionUpdate
  rw [hf]
  simp only [hauth, if_true]
  cases hv : transactionPayloadError s t tI with
  | some e =>
    intro x hx
    simp [failWith] at hx
    rw [hx]
    exact transactionPayloadError_code_ne_permission s t tI e hv
  | none =>
    cases he : eventPayloadError s eI with
    | some e =>
      intro x hx
      simp [failWith] at hx
      rw [hx]
      exact eventPayloadError_code_ne_permission s eI e he
    | none =>
      intro x hx
      simp at hx

/-- Witness for the amended C7 at a concrete input: the staff caller (user
3, holding the payments permission) is authorized on the transaction
created by a different user (user 9), and the mutation never yields a
permission error. -/
theorem transactionUpdate_user_permission_on_user_owned_witness :
    authorize staffCaller transU = true ∧
    ∀ e ∈ (transactionUpdate staffCaller 5 (some { status := some "Captured" })
        none stateU).errors,
      e.code ≠ ErrorCode.PERMISSION_DENIED :=
  transactionUpdate_user_permission_on_user_owned staffCaller 5
    (some { status := some "Captured" }) none stateU transU 3 9
    (by decide) (by decide) (by decide) (by decide)

/-- The GraphQL-facing rendering of a stored action value string: the
response's `actions` field maps each persisted value back to its enum
name. -/
def actionValueToName (v : String) : String :=
  if v == "charge" then "CHARGE"
  else if v == "refund" then "REFUND"
  else if v == "void" then "VOID"
  else if v == "cancel" then "CANCEL"
  else v

/-- The `actions` field of the mutation response for a transaction. -/
def responseActions (t : TransactionItem) : List String :=
  t.available_actions.map actionValueToName

theorem actionValueToName_value (a : TransactionAction) :
    actionValueToName a.value = a.gqlName := by
  cases a <;> decide

/-- C9: an update setting `availableActions` to a list of action enum names
succeeds; the response's `actions` field echoes the submitted enum names
while the persisted `available_actions` holds the corresponding lowercase
value strings — the stored representation is the enum value, not the enum
name. -/
theorem transactionUpdate_available_actions (c : Caller) (tid : Nat)
    (s : State) (t : TransactionItem) (acts : List TransactionAction)
    (hf : findTransaction s tid = some t)
    (hauth : authorize c t = true) :
    ∃ t2,
      (transactionUpdate c tid (some { available_actions := some acts }) none s).transaction
        = some t2 ∧
      (transactionUpdate c tid (some { available_actions := some acts }) none s).errors
        = [] ∧
      t2.available_actions = acts.map TransactionAction.value ∧
      responseActions t2 = acts.map TransactionAction.gqlName := by
  have hval : transactionPayloadError s t (some { available_actions := some acts }) =
      none := by
    simp [transactionPayloadError, validateTransactionInput, amountMismatch,
      metadataInvalid, urlInvalid, pspReferenceTaken]
  refine ⟨stagedTransaction t (some { available_actions := some acts }), ?_, ?_, ?_, ?_⟩
  · unfold transactionUpdate
    rw [hf]
    simp only [hauth, if_true, hval, eventPayloadError]
  · unfold transactionUpdate
    rw [hf]
    simp only [hauth, if_true, hval, eventPayloadError]
  · simp [stagedTransaction, applyTransactionInput]
  · simp only [stagedTransaction, applyTransactionInput, responseActions,
      List.map_map]
    apply List.map_congr_left
    intro a _
    exact actionValueToName_value a

/-- Witness for C9 at a concrete input: setting transaction B's
`availableActions` to `[REFUND]` succeeds, echoes `["REFUND"]` in the
response and persists `["refund"]`. -/
theorem transactionUpdate_available_actions_witness :
    ∃ t2,
      (transactionUpdate appOwner 2
          (some { available_actions := some [TransactionAction.refund] })
          none stateAB).transaction = some t2 ∧
      (transactionUpdate appOwner 2
          (some { available_actions := some [TransactionAction.refund] })
          none stateAB).errors = [] ∧
      t2.available_actions = [TransactionAction.refund].map TransactionAction.value ∧
      responseActions t2 = [TransactionAction.refund].map TransactionAction.gqlName :=
  transactionUpdate_available_actions appOwner 2 stateAB transB
    [TransactionAction.refund] (by decide) (by decide)

/-! ### Effects of the commit on the persisted state -/

theorem orderTransactions_update_authorize (s : State) (oid oid2 : Nat) :
    orderTransactions (update_order_authorize_data s oid) oid2 =
      orderTransactions s oid2 := rfl

theorem orderTransactions_update_charge (s : State) (oid oid2 : Nat) :
    orderTransactions (update_order_charge_data s oid) oid2 =
      orderTransactions s oid2 := rfl

theorem totalAuthorizedOf_update_charge (s : State) (oid oid2 : Nat) :
    totalAuthorizedOf (update_order_charge_data s oid) oid2 =
      totalAuthorizedOf s oid2 := by
  unfold totalAuthorizedOf update_order_charge_data
  rw [List.find?_map]
  have hfun : ((fun o : Order => o.id == oid2) ∘ fun o : Order =>
      if o.id == oid then
        { o with total_charged_amount := sumCharged (orderTransactions s oid) }
      else o) = fun o : Order => o.id == oid2 := by
    funext o
    by_cases h : o.id = oid <;> simp [h]
  rw [hfun]
  cases hfo : s.orders.find? (fun o => o.id == oid2) with
  | none => simp
  | some o => by_cases h : o.id = oid <;> simp [h]

theorem totalChargedOf_update_authorize (s : State) (oid oid2 : Nat) :
    totalChargedOf (update_order_authorize_data s oid) oid2 =
      totalChargedOf s oid2 := by
  unfold totalChargedOf update_order_authorize_data
  rw [List.find?_map]
  have hfun : ((fun o : Order => o.id == oid2) ∘ fun o : Order =>
      if o.id == oid then
        { o with total_authorized_amount := sumAuthorized (orderTransactions s oid) }
      else o) = fun o : Order => o.id == oid2 := by
    funext o
    by_cases h : o.id = oid <;> simp [h]
  rw [hfun]
  cases hfo : s.orders.find? (fun o => o.id == oid2) with
  | none => simp
  | some o => by_cases h : o.id = oid <;> simp [h]

theorem totalAuthorizedOf_update_authorize (s : State) (oid : Nat)
    (ho : (s.orders.find? (fun o => o.id == oid)).isSome = true) :
    totalAuthorizedOf (update_order_authorize_data s oid) oid =
      some (sumAuthorized (orderTransactions s oid)) := by
  unfold totalAuthorizedOf update_order_authorize_data
  rw [List.find?_map]
  have hfun : ((fun o : Order => o.id == oid) ∘ fun o : Order =>
      if o.id == oid then
        { o with total_authorized_amount := sumAuthorized (orderTransactions s oid) }
      else o) = fun o : Order => o.id == oid := by
    funext o
    by_cases h : o.id = oid <;> simp [h]
  rw [hfun]
  obtain ⟨o, hfo⟩ := Option.isSome_iff_exists.mp ho
  have hid : o.id = oid := by simpa using List.find?_some hfo
  rw [hfo]
  simp [hid]

theorem totalChargedOf_update_charge (s : State) (oid : Nat)
    (ho : (s.orders.find? (fun o => o.id == oid)).isSome = true) :
    totalChargedOf (update_order_charge_data s oid) oid =
      some (sumCharged (orderTransactions s oid)) := by
  unfold totalChargedOf update_order_charge_data
  rw [List.find?_map]
  have hfun : ((fun o : Order => o.id == oid) ∘ fun o : Order =>
      if o.id == oid then
        { o with total_charged_amount := sumCharged (orderTransactions s oid) }
      else o) = fun o : Order => o.id == oid := by
    funext o
    by_cases h : o.id = oid <;> simp [h]
  rw [hfun]
  obtain ⟨o, hfo⟩ := Option.isSome_iff_exists.mp ho
  have hid : o.id = oid := by simpa using List.find?_some hfo
  rw [hfo]
  simp [hid]

theorem update_order_authorize_data_find_isSome (s : State) (oid oid2 : Nat) :
    ((update_order_authorize_data s oid).orders.find?
        (fun o => o.id == oid2)).isSome =
      (s.orders.find? (fun o => o.id == oid2)).isSome := by
  unfold update_order_authorize_data
  rw [List.find?_map]
  have hfun : ((fun o : Order => o.id == oid2) ∘ fun o : Order =>
      if o.id == oid then
        { o with total_authorized_amount := sumAuthorized (orderTransactions s oid) }
      else o) = fun o : Order => o.id == oid2 := by
    funext o
    by_cases h : o.id = oid <;> simp [h]
  rw [hfun]
  simp

/-- The transactions after a commit: the resolved transaction replaced by
its staged version, everything else untouched. -/
theorem commitUpdate_transactions (s : State) (t t' : TransactionItem)
    (tI : Option TransactionUpdateInput) (eI : Option TransactionEventInput) :
    (commitUpdate s t t' tI eI).transactions =
      s.transactions.map (fun x => if x.id == t.id then t' else x) := by
  unfold commitUpdate
  cases eI <;>
    by_cases hA : hasAuthorizedAmount tI = true <;>
      by_cases hC : hasChargedAmount tI = true <;>
        simp [hA, hC, update_order_authorize_data, update_order_charge_data]

/-- The events after a commit with an event payload: exactly the one new
event, prepended. -/
theorem commitUpdate_events_some (s : State) (t t' : TransactionItem)
    (tI : Option TransactionUpdateInput) (ei : TransactionEventInput) :
    (commitUpdate s t t' tI (some ei)).events = buildEvent t ei :: s.events := by
  unfold commitUpdate
  by_cases hA : hasAuthorizedAmount tI = true <;>
    by_cases hC : hasChargedAmount tI = true <;>
      simp [hA, hC, update_order_authorize_data, update_order_charge_data]

/-- The order notes after a commit with an event payload: exactly the one
new note, prepended. -/
theorem commitUpdate_order_events_some (s : State) (t t' : TransactionItem)
    (tI : Option TransactionUpdateInput) (ei : TransactionEventInput) :
    (commitUpdate s t t' tI (some ei)).order_events =
      buildOrderNote t ei :: s.order_events := by
  unfold commitUpdate
  by_cases hA : hasAuthorizedAmount tI = true <;>
    by_cases hC : hasChargedAmount tI = true <;>
      simp [hA, hC, update_order_authorize_data, update_order_charge_data]

/-- A successful mutation — one with an empty error list — is exactly the
commit of the staged transaction. -/
theorem transactionUpdate_success_shape (c : Caller) (tid : Nat)
    (tI : Option TransactionUpdateInput) (eI : Option TransactionEventInput)
    (s : State) (t : TransactionItem)
    (hf : findTransaction s tid = some t)
    (hsucc : (transactionUpdate c tid tI eI s).errors = []) :
    transactionUpdate c tid tI eI s =
      { transaction := some (stagedTransaction t tI)
        errors := []
        state := commitUpdate s t (stagedTransaction t tI) tI eI } := by
  unfold transactionUpdate at hsucc ⊢
  rw [hf] at hsucc ⊢
  by_cases hauth : authorize c t = true
  · simp only [hauth, if_true] at hsucc ⊢
    cases hv : transactionPayloadError s t tI with
    | some e =>
      simp only [hv, failWith] at hsucc
      exact absurd hsucc (List.cons_ne_nil e [])
    | none =>
      simp only [hv] at hsucc ⊢
      cases he : eventPayloadError s eI with
      | some e =>
        simp only [he, failWith] at hsucc
        exact absurd hsucc (List.cons_ne_nil e [])
      | none => simp only [he]
  · simp only [if_neg hauth, failWith] at hsucc
    exact absurd hsucc (List.cons_ne_nil _ [])

/-- C6: a successful append of a `transactionEvent` creates exactly one new
event on the transaction, carrying the submitted status, pspReference,
name, externalUrl, amount and type, with the currency inherited from the
parent transaction; and the owning order's event history gains exactly one
note of type `TRANSACTION_EVENT` with parameters
`{message = name, reference = psp_reference, status = status.lower()}`. -/
theorem transactionUpdate_event_append (c : Caller) (tid : Nat)
    (tI : Option TransactionUpdateInput) (ei : TransactionEventInput)
    (s : State) (t : TransactionItem)
    (hf : findTransaction s tid = some t)
    (hsucc : (transactionUpdate c tid tI (some ei) s).errors = []) :
    (transactionUpdate c tid tI (some ei) s).state.events =
        buildEvent t ei :: s.events ∧
      (buildEvent t ei).status = ei.status ∧
      (buildEvent t ei).psp_reference = ei.psp_reference ∧
      (buildEvent t ei).name = ei.name.getD "" ∧
      (buildEvent t ei).external_url = ei.external_url.getD "" ∧
      (buildEvent t ei).amount_value = ei.amount.getD 0 ∧
      (buildEvent t ei).ttype = ei.ttype ∧
      (buildEvent t ei).currency = t.currency ∧
      (transactionUpdate c tid tI (some ei) s).state.order_events =
        buildOrderNote t ei :: s.order_events ∧
      (buildOrderNote t ei).event_type = TRANSACTION_EVENT ∧
      (buildOrderNote t ei).message = ei.name.getD "" ∧
      (buildOrderNote t ei).reference = ei.psp_reference.getD "" ∧
      (buildOrderNote t ei).status =
        (TransactionEventStatus.gqlName ei.status).toLower := by
  rw [transactionUpdate_success_shape c tid tI (some ei) s t hf hsucc]
  exact ⟨commitUpdate_events_some s t _ tI ei, rfl, rfl, rfl, rfl, rfl, rfl, rfl,
    commitUpdate_order_events_some s t _ tI ei, rfl, rfl, rfl, rfl⟩

/-- The concrete event input of the witness for C6. -/
def eventInputFix : TransactionEventInput :=
  { status := .failure, psp_reference := some "PSP-ref",
    name := some "Failed authorization",
    external_url := some "http://testserver.com/external-url",
    amount := some 10, ttype := some .authorizeAction }

/-- Witness for C6 at a concrete input: a successful event append on
transaction B creates exactly the submitted event with inherited USD
currency and adds the order note with the lowercased status. -/
theorem transactionUpdate_event_append_witness :
    (transactionUpdate appOwner 2 none (some eventInputFix) stateAB).state.events =
        buildEvent transB eventInputFix :: stateAB.events ∧
      (buildEvent transB eventInputFix).status = eventInputFix.status ∧
      (buildEvent transB eventInputFix).psp_reference = eventInputFix.psp_reference ∧
      (buildEvent transB eventInputFix).name = eventInputFix.name.getD "" ∧
      (buildEvent transB eventInputFix).external_url =
        eventInputFix.external_url.getD "" ∧
      (buildEvent transB eventInputFix).amount_value = eventInputFix.amount.getD 0 ∧
      (buildEvent transB eventInputFix).ttype = eventInputFix.ttype ∧
      (buildEvent transB eventInputFix).currency = transB.currency ∧
      (transactionUpdate appOwner 2 none (some eventInputFix) stateAB).state.order_events =
        buildOrderNote transB eventInputFix :: stateAB.order_events ∧
      (buildOrderNote transB eventInputFix).event_type = TRANSACTION_EVENT ∧
      (buildOrderNote transB eventInputFix).message = eventInputFix.name.getD "" ∧
      (buildOrderNote transB eventInputFix).reference =
        eventInputFix.psp_reference.getD "" ∧
      (buildOrderNote transB eventInputFix).status =
        (TransactionEventStatus.gqlName eventInputFix.status).toLower :=
  transactionUpdate_event_append appOwner 2 none eventInputFix stateAB transB
    (by decide) (by decide)

theorem applyTransactionInput_id (i : TransactionUpdateInput)
    (t : TransactionItem) : (applyTransactionInput i t).id = t.id := rfl

/-- After a commit, resolving the same id yields the staged transaction. -/
theorem commitUpdate_findTransaction (s : State) (t t' : TransactionItem)
    (tI : Option TransactionUpdateInput) (eI : Option TransactionEventInput)
    (tid : Nat) (hf : findTransaction s tid = some t) (hid : t'.id = t.id) :
    findTransaction (commitUpdate s t t' tI eI) tid = some t' := by
  unfold findTransaction at hf ⊢
  have htid : t.id = tid := by simpa using List.find?_some hf
  subst htid
  rw [commitUpdate_transactions, List.find?_map]
  have hfun : ((fun x : TransactionItem => x.id == t.id) ∘ fun x =>
      if x.id == t.id then t' else x) = fun x : TransactionItem => x.id == t.id := by
    funext x
    by_cases h : x.id = t.id <;> simp [h, hid]
  rw [hfun, hf]
  simp

theorem commitUpdate_total_authorized (s : State) (t t' : TransactionItem)
    (tI : Option TransactionUpdateInput) (eI : Option TransactionEventInput)
    (hA : hasAuthorizedAmount tI = true)
    (ho : (s.orders.find? (fun o => o.id == t.order_id)).isSome = true) :
    totalAuthorizedOf (commitUpdate s t t' tI eI) t.order_id =
      some (sumAuthorized (orderTransactions (commitUpdate s t t' tI eI)
        t.order_id)) := by
  unfold commitUpdate
  simp only [hA, if_true]
  cases eI with
  | none =>
    by_cases hC : hasChargedAmount tI = true
    · simp only [hC, if_true]
      rw [orderTransactions_update_charge, orderTransactions_update_authorize,
        totalAuthorizedOf_update_charge]
      exact totalAuthorizedOf_update_authorize _ t.order_id ho
    · rw [if_neg hC, orderTransactions_update_authorize]
      exact totalAuthorizedOf_update_authorize _ t.order_id ho
  | some ei =>
    by_cases hC : hasChargedAmount tI = true
    · simp only [hC, if_true]
      rw [orderTransactions_update_charge, orderTransactions_update_authorize,
        totalAuthorizedOf_update_charge]
      exact totalAuthorizedOf_update_authorize _ t.order_id ho
    · rw [if_neg hC, orderTransactions_update_authorize]
      exact totalAuthorizedOf_update_authorize _ t.order_id ho

theorem commitUpdate_total_charged (s : State) (t t' : TransactionItem)
    (tI : Option TransactionUpdateInput) (eI : Option TransactionEventInput)
    (hC : hasChargedAmount tI = true)
    (ho : (s.orders.find? (fun o => o.id == t.order_id)).isSome = true) :
    totalChargedOf (commitUpdate s t t' tI eI) t.order_id =
      some (sumCharged (orderTransactions (commitUpdate s t t' tI eI)
        t.order_id)) := by
  unfold commitUpdate
  simp only [hC, if_true]
  cases eI with
  | none =>
    by_cases hA : hasAuthorizedAmount tI = true
    · simp only [hA, if_true]
      rw [orderTransactions_update_charge, orderTransactions_update_authorize]
      refine (totalChargedOf_update_charge _ t.order_id ?_).trans ?_
      · rw [update_order_authorize_data_find_isSome]
        exact ho
      · rw [orderTransactions_update_authorize]
    · rw [if_neg hA, orderTransactions_update_charge]
      exact totalChargedOf_update_charge _ t.order_id ho
  | some ei =>
    by_cases hA : hasAuthorizedAmount tI = true
    · simp only [hA, if_true]
      rw [orderTransactions_update_charge, orderTransactions_update_authorize]
      refine (totalChargedOf_update_charge _ t.order_id ?_).trans ?_
      · rw [update_order_authorize_data_find_isSome]
        exact ho
      · rw [orderTransactions_update_authorize]
    · rw [if_neg hA, orderTransactions_update_charge]
      exact totalChargedOf_update_charge _ t.order_id ho

/-- The state after updating B's amountAuthorized to 10. -/
def stateAB1 : State :=
  (transactionUpdate appOwner 2 (some (authorizedPayload 10)) none stateAB).state

/-- The state after then updating B's amountAuthorized to 5. -/
def stateAB2 : State :=
  (transactionUpdate appOwner 2 (some (authorizedPayload 5)) none stateAB1).state

/-- The state after then updating B's amountAuthorized to 0. -/
def stateAB3 : State :=
  (transactionUpdate appOwner 2 (some (authorizedPayload 0)) none stateAB2).state

/-- C1: after every valid (successful) amount update, the transaction's
corresponding monetary field equals the submitted amount, and the owning
order's total authorized (resp. charged) amount equals the sum of
`authorized_value` (resp. `charged_value`) over all of the order's
transactions; in particular, with transactions A (authorized 90) and B
(authorized 0, USD), setting B's amountAuthorized to 10 yields order total
100, then to 5 yields 95, then to 0 yields 90. -/
theorem transactionUpdate_amount_updates (c : Caller) (tid : Nat)
    (i : TransactionUpdateInput) (eI : Option TransactionEventInput)
    (s : State) (t : TransactionItem)
    (hf : findTransaction s tid = some t)
    (ho : (s.orders.find? (fun o => o.id == t.order_id)).isSome = true)
    (hsucc : (transactionUpdate c tid (some i) eI s).errors = []) :
    (∃ t2,
      findTransaction (transactionUpdate c tid (some i) eI s).state tid = some t2 ∧
      (∀ m, i.amount_authorized = some m → t2.authorized_value = m.amount) ∧
      (∀ m, i.amount_charged = some m → t2.charged_value = m.amount) ∧
      (∀ m, i.amount_voided = some m → t2.voided_value = m.amount) ∧
      (∀ m, i.amount_refunded = some m → t2.refunded_value = m.amount) ∧
      (i.amount_authorized.isSome = true →
        totalAuthorizedOf (transactionUpdate c tid (some i) eI s).state t.order_id =
          some (sumAuthorized (orderTransactions
            (transactionUpdate c tid (some i) eI s).state t.order_id))) ∧
      (i.amount_charged.isSome = true →
        totalChargedOf (transactionUpdate c tid (some i) eI s).state t.order_id =
          some (sumCharged (orderTransactions
            (transactionUpdate c tid (some i) eI s).state t.order_id)))) ∧
    totalAuthorizedOf stateAB1 1 = some 100 ∧
    (findTransaction stateAB1 2).map (fun x => x.authorized_value) = some 10 ∧
    totalAuthorizedOf stateAB2 1 = some 95 ∧
    (findTransaction stateAB2 2).map (fun x => x.authorized_value) = some 5 ∧
    totalAuthorizedOf stateAB3 1 = some 90 ∧
    (findTransaction stateAB3 2).map (fun x => x.authorized_value) = some 0 := by
  refine ⟨?_, by decide, by decide, by decide, by decide, by decide, by decide⟩
  rw [transactionUpdate_success_shape c tid (some i) eI s t hf hsucc]
  refine ⟨applyTransactionInput i t, ?_, ?_, ?_, ?_, ?_, ?_, ?_⟩
  · exact commitUpdate_findTransaction s t _ (some i) eI tid hf rfl
  · intro m hm
    simp [applyTransactionInput, hm]
  · intro m hm
    simp [applyTransactionInput, hm]
  · intro m hm
    simp [applyTransactionInput, hm]
  · intro m hm
    simp [applyTransactionInput, hm]
  · intro hA
    exact commitUpdate_total_authorized s t _ (some i) eI hA ho
  · intro hC
    exact commitUpdate_total_charged s t _ (some i) eI hC ho

/-- Witness for C1 at a concrete input: updating transaction B's
amountAuthorized to 10 in state `stateAB` succeeds, B's authorized value
becomes 10 and order 1's total authorized equals the sum over its
transactions. -/
theorem transactionUpdate_amount_updates_witness :
    (∃ t2,
      findTransaction
        (transactionUpdate appOwner 2 (some (authorizedPayload 10)) none stateAB).state
          2 = some t2 ∧
      (∀ m, (authorizedPayload 10).amount_authorized = some m →
        t2.authorized_value = m.amount) ∧
      (∀ m, (authorizedPayload 10).amount_charged = some m →
        t2.charged_value = m.amount) ∧
      (∀ m, (authorizedPayload 10).amount_voided = some m →
        t2.voided_value = m.amount) ∧
      (∀ m, (authorizedPayload 10).amount_refunded = some m →
        t2.refunded_value = m.amount) ∧
      ((authorizedPayload 10).amount_authorized.isSome = true →
        totalAuthorizedOf
          (transactionUpdate appOwner 2 (some (authorizedPayload 10)) none stateAB).state
            transB.order_id =
          some (sumAuthorized (orderTransactions
            (transactionUpdate appOwner 2 (some (authorizedPayload 10)) none
              stateAB).state transB.order_id))) ∧
      ((authorizedPayload 10).amount_charged.isSome = true →
        totalChargedOf
          (transactionUpdate appOwner 2 (some (authorizedPayload 10)) none stateAB).state
            transB.order_id =
          some (sumCharged (orderTransactions
            (transactionUpdate appOwner 2 (some (authorizedPayload 10)) none
              stateAB).state transB.order_id)))) ∧
    totalAuthorizedOf stateAB1 1 = some 100 ∧
    (findTransaction stateAB1 2).map (fun x => x.authorized_value) = some 10 ∧
    totalAuthorizedOf stateAB2 1 = some 95 ∧
    (findTransaction stateAB2 2).map (fun x => x.authorized_value) = some 5 ∧
    totalAuthorizedOf stateAB3 1 = some 90 ∧
    (findTransaction stateAB3 2).map (fun x => x.authorized_value) = some 0 :=
  transactionUpdate_amount_updates appOwner 2 (authorizedPayload 10) none stateAB
    transB (by decide) (by decide) (by decide)

end Saleor
